import Mathlib

/-!
Shallow embedding of the bucket-handle module of the TencentCos repository
(file cos_bucket.py, class TencentCosBucket), together with theorems about
its region-resolution failover, path model, listing, deletion, upload and
URL/checksum operations.

Python string/path primitives used by the source are modelled by structurally
recursive Lean functions on the character list of a string, so that all
definitions are executable by the kernel.
-/

/-- Models Python str.startswith for a whole-string pattern. -/
def strStartsWith (s pat : String) : Bool :=
  pat.data.isPrefixOf s.data

/-- Models Python str.endswith for a whole-string pattern. -/
def strEndsWith (s pat : String) : Bool :=
  pat.data.isSuffixOf s.data

/-- Models Python `c in s` for a single character. -/
def strContainsChar (s : String) (c : Char) : Bool :=
  s.data.contains c

/-- Models Python s[:-1] (drop the final character). -/
def strDropLast (s : String) : String :=
  ⟨s.data.dropLast⟩

/-- Models Python s[1:] (drop the first character). -/
def strDropFirst (s : String) : String :=
  ⟨s.data.drop 1⟩

/-- Accumulator-based splitter behind strSplitChar. -/
def strSplitCharAux (c : Char) : List Char → List Char → List String
  | [], acc => [⟨acc.reverse⟩]
  | x :: xs, acc =>
    if x = c then ⟨acc.reverse⟩ :: strSplitCharAux c xs []
    else strSplitCharAux c xs (x :: acc)

/-- Models Python str.split(c) for a one-character separator
(keeps empty pieces, exactly as Python does). -/
def strSplitChar (s : String) (c : Char) : List String :=
  strSplitCharAux c s.data []

/-- Models Python sep.join(xs). -/
def strJoin (sep : String) : List String → String
  | [] => ""
  | [s] => s
  | s :: t :: rest => s ++ sep ++ strJoin sep (t :: rest)

/-- Fuel-indexed worker behind replaceAll; the fuel starts at the length of
the scanned character list, which suffices because every recursive step
consumes at least one character of the scanned list. -/
def replaceAllAux (pat : List Char) : Nat → List Char → List Char
  | _, [] => []
  | 0, l => l
  | n + 1, x :: xs =>
    if pat.isPrefixOf (x :: xs) then
      replaceAllAux pat n ((x :: xs).drop pat.length)
    else
      x :: replaceAllAux pat n xs

/-- Models Python s.replace(pat, ''): removes every non-overlapping
occurrence of pat, scanning left to right.  The source only ever replaces
with the empty string, so the replacement argument is specialised away;
like Python's replace with an empty replacement, an empty pattern leaves
the string unchanged. -/
def replaceAll (s pat : String) : String :=
  if pat.data.isEmpty then s else ⟨replaceAllAux pat.data s.data.length s.data⟩

/-- Models os.path.join(a, b) for POSIX paths as used in the source. -/
def osPathJoin (a b : String) : String :=
  if strStartsWith b "/" then b
  else if a = "" then b
  else if strEndsWith a "/" then a ++ b
  else a ++ "/" ++ b

/-- Models pathlib.Path(p).name for the relative POSIX file paths the
source feeds it: the last nonempty slash-separated component. -/
def pathName (p : String) : String :=
  ((strSplitChar p '/').filter (fun s => s ≠ "")).getLastD ""

/-- Uppercase hexadecimal digit, as urllib.parse.quote emits. -/
def hexDigitUpper (n : Nat) : Char :=
  if n < 10 then Char.ofNat (48 + n) else Char.ofNat (55 + n)

/-- UTF-8 encoding of one character (urllib.parse.quote percent-encodes
the UTF-8 bytes of non-safe characters). -/
def utf8Bytes (c : Char) : List UInt8 :=
  let n := c.toNat
  if n < 128 then [UInt8.ofNat n]
  else if n < 2048 then
    [UInt8.ofNat (192 + n / 64), UInt8.ofNat (128 + n % 64)]
  else if n < 65536 then
    [UInt8.ofNat (224 + n / 4096), UInt8.ofNat (128 + n / 64 % 64),
     UInt8.ofNat (128 + n % 64)]
  else
    [UInt8.ofNat (240 + n / 262144), UInt8.ofNat (128 + n / 4096 % 64),
     UInt8.ofNat (128 + n / 64 % 64), UInt8.ofNat (128 + n % 64)]

/-- Characters urllib.parse.quote keeps verbatim with its default safe set:
ASCII letters, digits, the marks underscore dot dash tilde, and the slash. -/
def quoteSafe (c : Char) : Bool :=
  c.isAlpha || c.isDigit || c == '_' || c == '.' || c == '-' || c == '~' || c == '/'

/-- Percent-encoding of one byte. -/
def percentEncodeByte (b : UInt8) : String :=
  ⟨['%', hexDigitUpper (b.toNat / 16), hexDigitUpper (b.toNat % 16)]⟩

/-- Models urllib.parse.quote with its default safe set. -/
def quote (s : String) : String :=
  String.join (s.data.map (fun c =>
    if quoteSafe c then String.singleton c
    else String.join ((utf8Bytes c).map percentEncodeByte)))

/-! ## Region resolution (cos_bucket.py lines 14, 20-46)

The TencentCos client is abstracted to the data the resolution loop reads
and rebuilds: its region and the endpoint-scoped account id (get_appid,
modelled as a function of the region).  The outcome of each
client.list_objects existence probe is an external event, modelled as a
function of the attempt index and the client state, covering the three
behaviours the source distinguishes: success, CosServiceError with code
NoSuchBucket, and any other error. -/

/-- Outcome of one client.list_objects existence probe. -/
inductive ProbeOutcome
  | success
  | noSuchBucket
  | otherError
deriving DecidableEq

/-- The mutable state read and rebuilt by _get_correct_cos_region:
self.cos.region and self.full_name. -/
structure ResState where
  cos_region : String
  full_name : String
deriving DecidableEq

/-- The fixed candidate list REGIONS of cos_bucket.py line 14. -/
def REGIONS : List String :=
  ["nanjing", "chengdu", "beijing", "guangzhou", "shanghai", "chongqing", "hongkong"]

/-- _get_bucket_url (lines 27-29). -/
def getBucketUrl (full_name region : String) : String :=
  "https://" ++ full_name ++ ".cos." ++ region ++ ".myqcloud.com/"

/-- The for-loop of _get_correct_cos_region (lines 31-46): iterate over the
candidate list; probe with the current client; on success return the loop
variable; on NoSuchBucket rebuild the client with region "ap-" ++ candidate
and recompute full_name from the refetched appid, then continue; on any
other error just log and fall through to the next iteration with the state
unchanged.  Returns the returned region (none when the loop exhausts, i.e.
the Python function falls off the end returning None), the number of probe
attempts made, and the final client state. -/
def resolveLoop (probe : Nat → ResState → ProbeOutcome) (appid : String → String)
    (name : String) : List String → ResState → Nat → Option String × Nat × ResState
  | [], st, n => (none, n, st)
  | region :: rest, st, n =>
    match probe n st with
    | .success => (some region, n + 1, st)
    | .noSuchBucket =>
      let region2 := "ap-" ++ region
      let st2 : ResState := { cos_region := region2, full_name := name ++ "-" ++ appid region2 }
      resolveLoop probe appid name rest st2 (n + 1)
    | .otherError => resolveLoop probe appid name rest st (n + 1)

/-- The attribute state of a TencentCosBucket after __init__. -/
structure TencentCosBucket where
  name : String
  full_name : String
  base_url : String
  region : Option String
  cos_region : String
deriving DecidableEq

/-- TencentCosBucket.__init__ (lines 20-25): compute full_name from the
initial client, derive base_url from it, then run region resolution (which
may rebuild the client and full_name but never touches base_url). -/
def TencentCosBucket.init (probe : Nat → ResState → ProbeOutcome)
    (appid : String → String) (bucket_name : String) (r0 : String) : TencentCosBucket :=
  let full0 := bucket_name ++ "-" ++ appid r0
  let base := getBucketUrl full0 r0
  let res := resolveLoop probe appid bucket_name REGIONS
    { cos_region := r0, full_name := full0 } 0
  { name := bucket_name, full_name := res.2.2.full_name, base_url := base,
    region := res.1, cos_region := res.2.2.cos_region }

/-! ## Bucket object model (cos_bucket.py lines 48-256)

The remote bucket is modelled as the list of its objects, an object being
its key plus the optional x-cos-meta-md5 metadata attached at upload time.
The provider primitives consumed by the source are modelled directly on
this state: list_objects(Bucket, Prefix) returns the keys that carry the
prefix, delete_object removes a key, put_object overwrites a key,
object_exists tests a key, get_object returns the stored object.  The MD5
hexdigest is abstracted as a function H from byte sequences to strings;
the local file system is a partial map from paths to byte contents. -/

/-- One remote object: key and the x-cos-meta-md5 metadata, if any. -/
structure CosObject where
  key : String
  md5_meta : Option String
deriving DecidableEq

/-- The remote bucket state. -/
abbrev Bucket := List CosObject

deriving instance DecidableEq for Except

/-- The keys held by the bucket. -/
def bucketKeys (b : Bucket) : List String := b.map (fun o => o.key)

/-- _list_objects (lines 48-55): client listing restricted to keys carrying
the prefix, then the prefix is removed from each returned key with a Python
replace-all; an empty listing yields the empty list (warning only). -/
def list_objects (b : Bucket) (pre : String) : List String :=
  ((bucketKeys b).filter (fun k => strStartsWith k pre)).map (fun k => replaceAll k pre)

/-- list_all_dirs (lines 57-59). -/
def list_all_dirs (b : Bucket) : List String :=
  ((list_objects b "").filter (fun ob => strEndsWith ob "/")).map strDropLast

/-- list_all_files (lines 61-63). -/
def list_all_files (b : Bucket) : List String :=
  (list_objects b "").filter (fun ob => !strEndsWith ob "/")

/-- list_dir_files (lines 65-74): for a directory other than the two root
spellings, strip one leading slash, append a trailing slash when missing,
and require the directory to appear in list_all_dirs, raising
CosBucketDirNotFoundError otherwise; then list with the (possibly
unnormalised, for the root spellings) directory as prefix. -/
def list_dir_files (b : Bucket) (remote_dir : String) : Except String (List String) :=
  if remote_dir = "" ∨ remote_dir = "/" then .ok (list_objects b remote_dir)
  else
    let d1 := if strStartsWith remote_dir "/" then strDropFirst remote_dir else remote_dir
    let d2 := if strEndsWith d1 "/" then d1 else d1 ++ "/"
    if (list_all_dirs b).contains (strDropLast d2) then .ok (list_objects b d2)
    else .error ("Bucket dir " ++ d2 ++ " not found.")

/-- _delete_object (lines 154-160): unconditional client delete of the key
(deleting an absent key is a provider no-op). -/
def delete_object (b : Bucket) (object_full_path : String) : Bucket :=
  b.filter (fun o => o.key ≠ object_full_path)

/-- delete_dir_files (lines 183-186): delete, one by one, every string
returned by list_dir_files for the directory. -/
def delete_dir_files (b : Bucket) (remote_dir : String) : Except String Bucket :=
  match list_dir_files b remote_dir with
  | .error e => .error e
  | .ok files => .ok (files.foldl (fun acc file => delete_object acc file) b)

/-- is_object_exists (lines 194-198). -/
def is_object_exists (b : Bucket) (object_full_path : String) : Bool :=
  b.any (fun o => o.key == object_full_path)

/-- client.put_object as used by _upload_object: store the object under the
key, overwriting any object already at that key. -/
def put_object (b : Bucket) (key : String) (md5_meta : Option String) : Bucket :=
  (b.filter (fun o => o.key ≠ key)) ++ [{ key := key, md5_meta := md5_meta }]

/-- The chunked read loop of get_local_file_md5 (lines 252-255):
iter(partial(f.read, 128), b'') produces the successive 128-byte chunks of
the file; the fuel starts at the content length, which suffices because
every chunk consumes at least one byte. -/
def readChunksAux : Nat → List UInt8 → List (List UInt8)
  | _, [] => []
  | 0, _ :: _ => []
  | n + 1, x :: xs => ((x :: xs).take 128) :: readChunksAux n ((x :: xs).drop 128)

/-- get_local_file_md5 (lines 247-256): the hexdigest H of the bytes
accumulated by updating the running hash with each 128-byte chunk, i.e. H
of the concatenation of the chunks read. -/
def get_local_file_md5 (H : List UInt8 → String) (content : List UInt8) : String :=
  H ((readChunksAux content.length content).foldl (fun acc buf => acc ++ buf) [])

/-- _upload_object (lines 99-131): fail when the local path is absent; take
the leaf name of the local path; skip (successfully, with a message) when
the leaf name occurs verbatim in the root listing and overwrite is off;
otherwise put the object at os.path.join(remote_dir, leaf) with the
streamed local MD5 attached as x-cos-meta-md5.  Returns the (ok, message)
pair of the source, the resulting bucket, and whether put_object was
invoked. -/
def upload_object (H : List UInt8 → String) (fs : String → Option (List UInt8))
    (self_name : String) (b : Bucket) (local_file_path : String)
    (remote_dir : String) (overwrite : Bool) : (Bool × String) × Bucket × Bool :=
  match fs local_file_path with
  | none => ((false, "local path: " ++ local_file_path ++ " doesnt exists"), b, false)
  | some content =>
    let file_name := pathName local_file_path
    if (list_objects b "").contains file_name && !overwrite then
      ((true, file_name ++ " already in " ++ self_name ++ ", skipped!"), b, false)
    else
      ((true, "SUCCESS"),
       put_object b (osPathJoin remote_dir file_name)
         (some (get_local_file_md5 H content)),
       true)

/-- client.get_object followed by response.get, as in _get_object_info and
_get_object_md5hash (lines 208-220): the stored metadata of the first
object at the key. -/
def get_object_md5hash (b : Bucket) (object_full_path : String) : Option String :=
  match b.find? (fun o => o.key == object_full_path) with
  | some o => o.md5_meta
  | none => none

/-- get_file_md5 (lines 200-206): the empty string when the key is absent,
otherwise the x-cos-meta-md5 metadata (absent when the object was not
uploaded through this system). -/
def get_file_md5 (b : Bucket) (remote_file_path : String) : Option String :=
  if is_object_exists b remote_file_path = false then some ""
  else get_object_md5hash b remote_file_path

/-- _parse_object_path_name (lines 238-245): no slash means empty directory;
otherwise split on every slash, the directory is the slash-join of all
pieces but the last, the leaf is the last piece. -/
def parse_object_path_name (object_full_path : String) : String × String :=
  if strContainsChar object_full_path '/' = false then ("", object_full_path)
  else
    let paths := strSplitChar object_full_path '/'
    (strJoin "/" paths.dropLast, paths.getLastD "")

/-- _get_object_url (lines 231-236): base URL plus the percent-encoding of
the directory concatenated directly with the leaf. -/
def get_object_url (base_url remote_path object_key : String) : String :=
  base_url ++ quote (remote_path ++ object_key)

/-- get_file_url (lines 222-229): empty string when the key is absent,
otherwise parse the path and build the object URL. -/
def get_file_url (b : Bucket) (base_url : String) (remote_file_path : String) : String :=
  if is_object_exists b remote_file_path = false then ""
  else
    let pr := parse_object_path_name remote_file_path
    get_object_url base_url pr.1 pr.2

/-! ## Concrete instances used by the claim theorems -/

/-- A probe environment for a bucket homed in region guangzhou: the probe
succeeds exactly when the client is pinned to ap-guangzhou and raises
CosServiceError with code NoSuchBucket everywhere else. -/
def probeHomeGuangzhou : Nat → ResState → ProbeOutcome := fun _ st =>
  if st.cos_region = "ap-guangzhou" then .success else .noSuchBucket

/-- A probe environment for a bucket homed in region nanjing. -/
def probeHomeNanjing : Nat → ResState → ProbeOutcome := fun _ st =>
  if st.cos_region = "ap-nanjing" then .success else .noSuchBucket

/-- A probe environment whose first attempt fails with an error other than
NoSuchBucket and whose later attempts succeed (a transient fault of the
external provider). -/
def probeFlaky : Nat → ResState → ProbeOutcome := fun n _ =>
  if n = 0 then .otherError else .success

/-- A hash oracle returning "newhash" on every byte sequence. -/
def H7 : List UInt8 → String := fun _ => "newhash"

/-- A local file system holding exactly the file x.csv. -/
def fs7 : String → Option (List UInt8) := fun p =>
  if p = "x.csv" then some [1] else none

/-- A bucket holding the directory marker reports/ and the object
reports/x.csv. -/
def bC5 : Bucket := [⟨"reports/", none⟩, ⟨"reports/x.csv", some "h"⟩]

/-! ## Helper lemmas -/

/-- The empty pattern is a prefix of every string. -/
theorem strStartsWith_empty (s : String) : strStartsWith s "" = true := by
  cases h : s.data <;> simp [strStartsWith, List.isPrefixOf]

/-- Removing the empty pattern leaves the string unchanged, as in Python. -/
theorem replaceAll_empty (s : String) : replaceAll s "" = s := by
  simp [replaceAll]

/-- The root listing of _list_objects returns the bucket's keys verbatim:
the empty prefix keeps every key and the replace-all removes nothing. -/
theorem list_objects_root (b : Bucket) : list_objects b "" = bucketKeys b := by
  simp [list_objects, strStartsWith_empty, replaceAll_empty]

/-- Folding the chunks produced by the 128-byte read loop back together
reproduces the original byte sequence. -/
theorem readChunks_concat : ∀ (n : Nat) (l acc : List UInt8), l.length ≤ n →
    (readChunksAux n l).foldl (fun a b => a ++ b) acc = acc ++ l := by
  intro n
  induction n with
  | zero =>
    intro l acc h
    have hl : l = [] := List.eq_nil_of_length_eq_zero (Nat.le_zero.mp h)
    subst hl
    simp [readChunksAux]
  | succ n ih =>
    intro l acc h
    cases l with
    | nil => simp [readChunksAux]
    | cons x xs =>
      have hlen : ((x :: xs).drop 128).length ≤ n := by
        simp only [List.length_cons] at h
        simp only [List.length_drop, List.length_cons]
        omega
      simp only [readChunksAux, List.foldl_cons]
      rw [ih ((x :: xs).drop 128) (acc ++ (x :: xs).take 128) hlen]
      rw [List.append_assoc, List.take_append_drop]

/-- The streamed, chunked MD5 of get_local_file_md5 is the hash of the
whole byte content. -/
theorem get_local_file_md5_eq (H : List UInt8 → String) (content : List UInt8) :
    get_local_file_md5 H content = H content := by
  unfold get_local_file_md5
  rw [readChunks_concat content.length content [] le_rfl, List.nil_append]

/-- After put_object stores an object under key k, find? at k retrieves
exactly that object: the put first removed every object previously at k. -/
theorem find_after_put (b : Bucket) (k m : String) :
    (put_object b k (some m)).find? (fun o => o.key == k) = some ⟨k, some m⟩ := by
  unfold put_object
  induction b with
  | nil => simp [List.find?]
  | cons o rest ih =>
    by_cases h : o.key = k
    · simp [List.filter_cons, h]
    · simp [List.filter_cons, h, List.find?_cons, ih]

/-- After put_object stores metadata m under key k, get_file_md5 at k
returns m. -/
theorem get_file_md5_put (b : Bucket) (k m : String) :
    get_file_md5 (put_object b k (some m)) k = some m := by
  have hex : is_object_exists (put_object b k (some m)) k = true := by
    simp [is_object_exists, put_object]
  simp [get_file_md5, hex, get_object_md5hash, find_after_put]

/-- The full_name/identity consistency is preserved by the resolution loop:
whenever the loop rebuilds the client, it recomputes full_name from the new
region's appid in the same step. -/
theorem resolveLoop_full_name (probe : Nat → ResState → ProbeOutcome)
    (appid : String → String) (name : String) :
    ∀ (l : List String) (st : ResState) (n : Nat),
      st.full_name = name ++ "-" ++ appid st.cos_region →
      (resolveLoop probe appid name l st n).2.2.full_name
        = name ++ "-" ++ appid (resolveLoop probe appid name l st n).2.2.cos_region := by
  intro l
  induction l with
  | nil => intro st n h; simpa [resolveLoop] using h
  | cons c rest ih =>
    intro st n h
    cases hp : probe n st with
    | success => simpa [resolveLoop, hp] using h
    | noSuchBucket =>
      simp only [resolveLoop, hp]
      exact ih _ _ rfl
    | otherError =>
      simp only [resolveLoop, hp]
      exact ih _ _ h

/-! ## Claim theorems -/

/-- Claim C1 (refuted, code bug): with the bucket homed at candidate region
guangzhou (1-indexed position 4 of REGIONS: the probe succeeds exactly when
the client is pinned to ap-guangzhou and fails with the NoSuchBucket code
for every other pinning), starting from the default identity region
ap-nanjing, _get_correct_cos_region makes 5 probe attempts and returns
"shanghai": the loop probes with the client built in the previous
iteration, so on success it returns the candidate after the one whose
client actually held the bucket, contradicting the claimed region R after
position-of-R attempts. -/
theorem c1_resolution_returns_wrong_region :
    resolveLoop probeHomeGuangzhou (fun _ => "125") "b" REGIONS
        ⟨"ap-nanjing", "b-125"⟩ 0
      = (some "shanghai", 5, ⟨"ap-guangzhou", "b-125"⟩) ∧
    REGIONS[3]? = some "guangzhou" ∧ ("shanghai" : String) ≠ "guangzhou" := by
  decide

/-- Claim C2 counterexample: a probe whose first attempt fails with an
error other than NoSuchBucket and whose second attempt succeeds.  The code
does not abandon resolution after the first failure: a second probe attempt
is made and resolution completes with a confirmed region, so resolution is
neither abandoned immediately nor left without a confirmed region. -/
theorem c2_counterexample :
    resolveLoop probeFlaky (fun _ => "125") "b" REGIONS ⟨"ap-nanjing", "b-125"⟩ 0
      = (some "chengdu", 2, ⟨"ap-nanjing", "b-125"⟩) := by
  decide

/-- Claim C2 (amended): when a probe fails with an error other than
NoSuchBucket, the identity is left unchanged and the loop simply advances
to the next candidate iteration and probes again; resolution is therefore
not abandoned immediately.  Only when every attempt fails with such an
error does the handle end up without a confirmed region, after one probe
attempt per candidate (7 in all). -/
theorem c2_other_error_keeps_probing (probe : Nat → ResState → ProbeOutcome)
    (appid : String → String) (name : String) :
    (∀ (st : ResState) (n : Nat) (c : String) (rest : List String),
        probe n st = ProbeOutcome.otherError →
        resolveLoop probe appid name (c :: rest) st n
          = resolveLoop probe appid name rest st (n + 1)) ∧
    (∀ st : ResState, (∀ m, probe m st = ProbeOutcome.otherError) →
        resolveLoop probe appid name REGIONS st 0 = (none, 7, st)) := by
  have key : ∀ (l : List String) (st : ResState) (n : Nat),
      (∀ m, probe m st = ProbeOutcome.otherError) →
      resolveLoop probe appid name l st n = (none, n + l.length, st) := by
    intro l
    induction l with
    | nil => intro st n h; simp [resolveLoop]
    | cons c rest ih =>
      intro st n h
      simp only [resolveLoop, h n]
      rw [ih st (n + 1) h]
      simp only [List.length_cons, Prod.mk.injEq, true_and, and_true]
      omega
  constructor
  · intro st n c rest h
    simp [resolveLoop, h]
  · intro st h
    simpa [REGIONS] using key REGIONS st 0 h

/-- Witness for C2 (amended), at a probe that always fails with a
non-NoSuchBucket error: all 7 candidates are probed and no region is
confirmed. -/
theorem c2_other_error_keeps_probing_witness :
    resolveLoop (fun _ _ => ProbeOutcome.otherError) (fun _ => "125") "b" REGIONS
        ⟨"ap-nanjing", "b-125"⟩ 0
      = (none, 7, ⟨"ap-nanjing", "b-125"⟩) :=
  (c2_other_error_keeps_probing (fun _ _ => ProbeOutcome.otherError)
    (fun _ => "125") "b").2 ⟨"ap-nanjing", "b-125"⟩ (fun _ => rfl)

/-- Claim C3 counterexample: for a bucket homed in nanjing while the
initial identity region is ap-guangzhou, after construction (one failover
swap) the handle's base URL still carries the initial region and so is not
the URL computed from the handle's current full name and identity region:
the base URL is not recomputed when the identity is swapped. -/
theorem c3_counterexample :
    (TencentCosBucket.init probeHomeNanjing (fun _ => "125") "b" "ap-guangzhou").base_url
      ≠ getBucketUrl
          (TencentCosBucket.init probeHomeNanjing (fun _ => "125") "b" "ap-guangzhou").full_name
          (TencentCosBucket.init probeHomeNanjing (fun _ => "125") "b" "ap-guangzhou").cos_region := by
  decide

/-- Claim C3 (amended): the fully-qualified bucket name is always
consistent with the handle's current identity (it is recomputed from the
refetched account id whenever the identity is swapped during failover),
but the base URL is computed once in __init__ from the initial identity
and is never recomputed afterwards. -/
theorem c3_full_name_tracks_identity (probe : Nat → ResState → ProbeOutcome)
    (appid : String → String) (bucket_name r0 : String) :
    (TencentCosBucket.init probe appid bucket_name r0).full_name
      = bucket_name ++ "-"
          ++ appid (TencentCosBucket.init probe appid bucket_name r0).cos_region ∧
    (TencentCosBucket.init probe appid bucket_name r0).base_url
      = getBucketUrl (bucket_name ++ "-" ++ appid r0) r0 := by
  refine ⟨?_, rfl⟩
  simpa [TencentCosBucket.init] using
    resolveLoop_full_name probe appid bucket_name REGIONS
      ⟨r0, bucket_name ++ "-" ++ appid r0⟩ 0 rfl

/-- Claim C4 (refuted, code bug): for the existing key reports/x.csv,
get_file_url returns the base URL followed by the percent-encoding of
"reportsx.csv": _parse_object_path_name removes the separating slash and
_get_object_url concatenates directory and leaf without reinserting it, so
the result differs from the base URL followed by the percent-encoding of
"reports/x.csv" as the claim states. -/
theorem c4_get_file_url_drops_separator :
    get_file_url [⟨"reports/x.csv", none⟩]
        "https://b-125.cos.ap-nanjing.myqcloud.com/" "reports/x.csv"
      = "https://b-125.cos.ap-nanjing.myqcloud.com/" ++ quote "reportsx.csv" ∧
    "https://b-125.cos.ap-nanjing.myqcloud.com/" ++ quote "reportsx.csv"
      ≠ "https://b-125.cos.ap-nanjing.myqcloud.com/" ++ quote "reports/x.csv" := by
  decide

/-- Claim C5 (refuted, code bug): on a bucket holding the directory marker
reports/ and the object reports/x.csv, delete_dir_files "reports" issues
its deletes for the prefix-stripped names returned by list_dir_files (""
and "x.csv"), which match no key of the bucket, so the bucket is left
unchanged and a subsequent list_dir_files "reports" still returns
["", "x.csv"], not the empty sequence the claim states. -/
theorem c5_delete_dir_files_misses_keys :
    delete_dir_files bC5 "reports" = Except.ok bC5 ∧
    list_dir_files bC5 "reports" = Except.ok ["", "x.csv"] ∧
    bucketKeys bC5 = ["reports/", "reports/x.csv"] ∧
    (["", "x.csv"] : List String) ≠ [] := by
  decide

/-- Claim C6 counterexample: _parse_object_path_name keeps the leading
slash in the directory part, so parse of "/a/b/c.txt" is not
("a/b", "c.txt") as the claim states. -/
theorem c6_counterexample :
    parse_object_path_name "/a/b/c.txt" ≠ ("a/b", "c.txt") := by
  decide

/-- Claim C6 (amended): _parse_object_path_name splits on the last slash,
keeping everything before it verbatim (including a leading slash), and a
path with no slash yields an empty directory part; it is a pure function.
In particular parse of "/a/b/c.txt" is ("/a/b", "c.txt") and parse of
"c.txt" is ("", "c.txt"). -/
theorem c6_parse_splits_on_last_slash :
    (∀ s : String, strContainsChar s '/' = false →
        parse_object_path_name s = ("", s)) ∧
    parse_object_path_name "/a/b/c.txt" = ("/a/b", "c.txt") ∧
    parse_object_path_name "c.txt" = ("", "c.txt") := by
  refine ⟨fun s h => ?_, by decide, by decide⟩
  simp [parse_object_path_name, h]

/-- Witness for C6 (amended), at a concrete slash-free path. -/
theorem c6_parse_splits_on_last_slash_witness :
    parse_object_path_name "data.bin" = ("", "data.bin") :=
  c6_parse_splits_on_last_slash.1 "data.bin" (by decide)

/-- Claim C7 counterexample: the bucket holds reports/x.csv, whose leaf
name equals that of the local file x.csv being uploaded into directory
reports with overwrite disabled.  The claim says no put happens and the
existing object's checksum metadata is unchanged; the code instead calls
put_object (the leaf check compares against full keys, so the same-named
object inside a directory does not trigger the skip) and the stored
metadata changes from oldhash to the new upload's hash. -/
theorem c7_counterexample :
    (upload_object H7 fs7 "mybucket" [⟨"reports/x.csv", some "oldhash"⟩]
        "x.csv" "reports" false).2.2 = true ∧
    (upload_object H7 fs7 "mybucket" [⟨"reports/x.csv", some "oldhash"⟩]
        "x.csv" "reports" false).2.1
      = [⟨"reports/x.csv", some "newhash"⟩] ∧
    some "newhash" ≠ some "oldhash" := by
  decide

/-- Claim C7 (amended): the overwrite=false skip triggers exactly when
some full key of the bucket equals the leaf name of the local file, i.e.
when a root-level object with that name exists; in that case no put call
is made, the bucket (hence the existing object's metadata) is unchanged,
and the operation reports success with an informational message. -/
theorem c7_skip_on_root_level_name (H : List UInt8 → String)
    (fs : String → Option (List UInt8)) (nm : String) (b : Bucket)
    (local_file_path remote_dir : String) (content : List UInt8)
    (h1 : fs local_file_path = some content)
    (h2 : (bucketKeys b).contains (pathName local_file_path) = true) :
    upload_object H fs nm b local_file_path remote_dir false
      = ((true, pathName local_file_path ++ " already in " ++ nm ++ ", skipped!"),
          b, false) := by
  simp only [upload_object, h1]
  rw [list_objects_root]
  simp [h2]
  exact List.mem_of_elem_eq_true h2

/-- Witness for C7 (amended): a root-level object x.csv makes the upload
of a local x.csv with overwrite disabled a no-op success. -/
theorem c7_skip_on_root_level_name_witness :
    upload_object H7 fs7 "mybucket" [⟨"x.csv", some "oldhash"⟩]
        "x.csv" "reports" false
      = ((true, "x.csv already in mybucket, skipped!"),
          [⟨"x.csv", some "oldhash"⟩], false) :=
  c7_skip_on_root_level_name H7 fs7 "mybucket" [⟨"x.csv", some "oldhash"⟩]
    "x.csv" "reports" [1] (by decide) (by decide)

/-- Claim C8 counterexample: on a bucket whose only key is a.txt,
list_dir_files "" returns the full root listing ["a.txt"] while
list_dir_files "/" lists with prefix "/" and returns [], so the two root
spellings do not enumerate the same sequence. -/
theorem c8_counterexample :
    list_dir_files [⟨"a.txt", none⟩] "" = Except.ok ["a.txt"] ∧
    list_dir_files [⟨"a.txt", none⟩] "/" = Except.ok [] ∧
    (Except.ok ["a.txt"] : Except String (List String)) ≠ Except.ok [] := by
  decide

/-- Claim C8 (amended): both root spellings bypass the directory-existence
validation, but they do not list the same thing: "" enumerates every key
of the bucket, while "/" lists only keys that begin with a slash (with the
slashes then stripped), which is empty whenever no key of the bucket
begins with a slash. -/
theorem c8_root_spellings_diverge :
    (∀ b : Bucket, list_dir_files b "" = Except.ok (bucketKeys b)) ∧
    (∀ b : Bucket, (∀ k ∈ bucketKeys b, strStartsWith k "/" = false) →
        list_dir_files b "/" = Except.ok []) := by
  constructor
  · intro b
    unfold list_dir_files
    rw [if_pos (Or.inl rfl), list_objects_root]
  · intro b h
    have hfil : (bucketKeys b).filter (fun k => strStartsWith k "/") = [] := by
      rw [List.filter_eq_nil_iff]
      intro k hk
      simp [h k hk]
    unfold list_dir_files
    rw [if_pos (Or.inr rfl)]
    unfold list_objects
    rw [hfil]
    rfl

/-- Witness for C8 (amended): the bucket with the single key a.txt has no
key beginning with a slash, so the "/" spelling lists nothing. -/
theorem c8_root_spellings_diverge_witness :
    list_dir_files [⟨"a.txt", none⟩] "/" = Except.ok [] :=
  c8_root_spellings_diverge.2 [⟨"a.txt", none⟩] (by decide)

/-- Claim C9 (confirmed): uploading an existing local file (overwrite on)
stores, under the resulting remote key, the MD5 computed over the file in
streamed 128-byte chunks, and get_file_md5 on that key returns exactly the
hash H of the local source bytes. -/
theorem c9_upload_md5_roundtrip (H : List UInt8 → String)
    (fs : String → Option (List UInt8)) (nm : String) (b : Bucket)
    (local_file_path remote_dir : String) (content : List UInt8)
    (h : fs local_file_path = some content) :
    get_file_md5 ((upload_object H fs nm b local_file_path remote_dir true).2.1)
        (osPathJoin remote_dir (pathName local_file_path))
      = some (H content) := by
  simp only [upload_object, h, Bool.not_true, Bool.and_false, Bool.false_eq_true,
    if_false]
  rw [get_file_md5_put, get_local_file_md5_eq]

/-- Witness for C9, at a concrete hash oracle, file system, and empty
bucket. -/
theorem c9_upload_md5_roundtrip_witness :
    get_file_md5 ((upload_object (fun _ => "h123") (fun _ => some [1, 2, 3])
        "mybucket" [] "f.bin" "" true).2.1)
        (osPathJoin "" (pathName "f.bin"))
      = some "h123" :=
  c9_upload_md5_roundtrip (fun _ => "h123") (fun _ => some [1, 2, 3])
    "mybucket" [] "f.bin" "" [1, 2, 3] rfl

/-- Claim C10 (confirmed): the internal listing maps every key carrying
the prefix to the key with every occurrence of the prefix removed
(replace-all), so for the bucket holding a/ and a/a/b, list_dir_files "a"
returns ["", "b"]: the key a/a/b is reported as "b" (both occurrences of
"a/" removed), not as the prefix-stripped remainder "a/b". -/
theorem c10_listing_strips_all_occurrences :
    (∀ (b : Bucket) (pre k : String), k ∈ bucketKeys b →
        strStartsWith k pre = true → replaceAll k pre ∈ list_objects b pre) ∧
    list_dir_files [⟨"a/", none⟩, ⟨"a/a/b", none⟩] "a" = Except.ok ["", "b"] ∧
    replaceAll "a/a/b" "a/" = "b" := by
  refine ⟨fun b pre k hk hpre => ?_, by decide, by decide⟩
  unfold list_objects
  exact List.mem_map_of_mem _ (List.mem_filter.mpr ⟨hk, hpre⟩)

/-- Witness for C10, at a one-object bucket with a repeated prefix in the
key. -/
theorem c10_listing_strips_all_occurrences_witness :
    replaceAll "a/a/b" "a/" ∈ list_objects [⟨"a/a/b", none⟩] "a/" :=
  c10_listing_strips_all_occurrences.1 [⟨"a/a/b", none⟩] "a/" "a/a/b"
    (by decide) (by decide)
